import Mathlib

/-!
Verification development for the post-processing configuration engine of
this repository (`post-processing/streamlit_post_processing.py`).

The state-manipulating operations (`add_filter`, `update_axes`,
`add_extra_column`, `update_config`, `rerun_post_processing`, `update_filter`,
`update_types`) are translated directly from the source file.  The collaborator
classes `ConfigHandler` and `PostProcessing` (modules `config_handler` and
`post_processing`) are imported by the source but their code is not part of
this repository snapshot; every definition standing in for them is marked
`Modelled from the spec:` in its doc comment and follows the specification's
description of that operation.
-/

namespace StreamlitPost

/-! ## Decimal digit rendering and parsing

Ground work for the type system model: a canonical decimal rendering of
naturals/integers together with a parser, with a proved round trip.  -/

/-- Map a decimal digit to its character. -/
def digitChar : Nat → Char
  | 0 => '0' | 1 => '1' | 2 => '2' | 3 => '3' | 4 => '4'
  | 5 => '5' | 6 => '6' | 7 => '7' | 8 => '8' | _ => '9'

/-- Map a character back to a decimal digit, if it is one. -/
def charDigit (c : Char) : Option Nat :=
  if 48 ≤ c.toNat && c.toNat ≤ 57 then some (c.toNat - 48) else none

theorem charDigit_digitChar {d : Nat} (hd : d < 10) : charDigit (digitChar d) = some d := by
  interval_cases d <;> rfl

theorem digitChar_ne_minus (d : Nat) : digitChar d ≠ '-' := by
  unfold digitChar
  split <;> decide

/-- Little-endian base-10 digits of a natural number, fuel-driven so that it
computes by structural recursion. -/
def natDigitsAux : Nat → Nat → List Nat
  | 0, _ => []
  | fuel + 1, n => if n = 0 then [] else n % 10 :: natDigitsAux fuel (n / 10)

/-- Little-endian base-10 digits of a natural number. -/
def natDigits (n : Nat) : List Nat := natDigitsAux n n

theorem natDigitsAux_eq (fuel n : Nat) (h : n ≤ fuel) :
    natDigitsAux fuel n = Nat.digits 10 n := by
  induction fuel generalizing n with
  | zero =>
    have : n = 0 := Nat.le_zero.mp h
    subst this
    simp [natDigitsAux]
  | succ fuel ih =>
    by_cases hn : n = 0
    · subst hn; simp [natDigitsAux]
    · rw [natDigitsAux, if_neg hn,
        Nat.digits_def' (by norm_num : (1:Nat) < 10) (Nat.pos_of_ne_zero hn),
        ih (n / 10)]
      have hlt : n / 10 < n := Nat.div_lt_self (Nat.pos_of_ne_zero hn) (by norm_num)
      omega

theorem natDigits_eq (n : Nat) : natDigits n = Nat.digits 10 n :=
  natDigitsAux_eq n n le_rfl

/-- Evaluate a little-endian digit list, structurally (kernel-friendly). -/
def digitsToNat : List Nat → Nat
  | [] => 0
  | d :: ds => d + 10 * digitsToNat ds

theorem digitsToNat_eq (l : List Nat) : digitsToNat l = Nat.ofDigits 10 l := by
  induction l with
  | nil => simp [digitsToNat, Nat.ofDigits_nil]
  | cons d ds ih => simp [digitsToNat, Nat.ofDigits_cons, ih]

/-- Parse a list of characters into decimal digits; fails on any non-digit. -/
def chars2digits : List Char → Option (List Nat)
  | [] => some []
  | c :: cs =>
    match charDigit c, chars2digits cs with
    | some d, some ds => some (d :: ds)
    | _, _ => none

theorem chars2digits_map (m : List Nat) (hm : ∀ d ∈ m, d < 10) :
    chars2digits (m.map digitChar) = some m := by
  induction m with
  | nil => rfl
  | cons d ds ih =>
    have hd : d < 10 := hm d (List.mem_cons_self d ds)
    have hds : ∀ x ∈ ds, x < 10 := fun x hx => hm x (List.mem_cons_of_mem d hx)
    simp only [List.map_cons, chars2digits, charDigit_digitChar hd, ih hds]

/-- Big-endian character rendering of a natural number. -/
def natChars (n : Nat) : List Char :=
  if n = 0 then ['0'] else ((natDigits n).map digitChar).reverse

/-- Parse a nonempty big-endian character list into a natural number. -/
def parseNatChars (cs : List Char) : Option Nat :=
  if cs = [] then none
  else (chars2digits cs).map (fun ds => digitsToNat ds.reverse)

theorem natChars_ne_nil (n : Nat) : natChars n ≠ [] := by
  unfold natChars
  split
  · simp
  · rename_i hn
    rw [natDigits_eq]
    simp [Nat.digits_ne_nil_iff_ne_zero.mpr hn]

theorem mem_natChars_ne_minus (n : Nat) : ∀ c ∈ natChars n, c ≠ '-' := by
  intro c hc
  unfold natChars at hc
  split at hc
  · rw [List.mem_singleton] at hc
    subst hc
    decide
  · rw [List.mem_reverse] at hc
    obtain ⟨d, _, rfl⟩ := List.mem_map.mp hc
    exact digitChar_ne_minus d

theorem parseNatChars_natChars (n : Nat) : parseNatChars (natChars n) = some n := by
  unfold parseNatChars
  rw [if_neg (natChars_ne_nil n)]
  unfold natChars
  by_cases hn : n = 0
  · subst hn
    rfl
  · rw [if_neg hn]
    have hdig : ∀ d ∈ natDigits n, d < 10 := by
      intro d hd
      rw [natDigits_eq] at hd
      exact Nat.digits_lt_base (by norm_num) hd
    rw [← List.map_reverse, chars2digits_map _ (fun d hd => hdig d (List.mem_reverse.mp hd))]
    simp only [Option.map_some', List.reverse_reverse, Option.some.injEq]
    rw [digitsToNat_eq, natDigits_eq, Nat.ofDigits_digits]

/-- Big-endian character rendering of an integer (with sign). -/
def intChars (n : Int) : List Char :=
  if n < 0 then '-' :: natChars n.natAbs else natChars n.natAbs

/-- Parse a character list into an integer, accepting a leading minus sign. -/
def parseIntChars : List Char → Option Int
  | [] => none
  | c :: rest =>
    if c = '-' then (parseNatChars rest).map (fun m : Nat => -(m : Int))
    else (parseNatChars (c :: rest)).map (fun m : Nat => (m : Int))

theorem parseIntChars_intChars (n : Int) : parseIntChars (intChars n) = some n := by
  unfold intChars
  by_cases hn : n < 0
  · rw [if_pos hn]
    simp only [parseIntChars, if_pos rfl, parseNatChars_natChars, if_true,
      Option.map_some', Option.some.injEq]
    omega
  · rw [if_neg hn]
    obtain ⟨c, cs, hc⟩ : ∃ c cs, natChars n.natAbs = c :: cs := by
      cases h : natChars n.natAbs with
      | nil => exact absurd h (natChars_ne_nil _)
      | cons c cs => exact ⟨c, cs, rfl⟩
    rw [hc]
    have hcne : c ≠ '-' := mem_natChars_ne_minus _ c (hc ▸ List.mem_cons_self c cs)
    simp only [parseIntChars, if_neg hcne]
    rw [← hc, parseNatChars_natChars]
    simp only [Option.map_some', Option.some.injEq]
    omega

/-! ## Type system

Modelled from the spec: the `TypeSystem` component (§4.1) and the casting
helpers `PostProcessing.val_as_dtype` / `PostProcessing.val_as_col_dtype`
live in the `post_processing` module, which is not part of this repository
snapshot.  The model below follows the spec's words: four user-facing type
names, a `cast` that fails with a coercion error when the textual value
cannot be parsed as the requested type, and values compared natively.
Floats are modelled on their integral values (rendered with a trailing
`.0`, as pandas renders integral floats); datetimes are modelled as
natural-number timestamps. -/

/-- The four user-facing column type names of the source's `column_types`
drop-down list. -/
inductive TypeName
  | tDatetime | tInt | tFloat | tStr
deriving DecidableEq

/-- A native column value, one constructor per user-facing type name. -/
inductive PValue
  | vDatetime (n : Nat)
  | vInt (n : Int)
  | vFloat (n : Int)
  | vStr (s : String)
deriving DecidableEq

/-- Parse a float literal: either a plain integer or one with suffix `.0`. -/
def parseFloatChars (cs : List Char) : Option Int :=
  match cs.reverse with
  | '0' :: '.' :: rest => parseIntChars rest.reverse
  | _ => parseIntChars cs

/-- Modelled from the spec: `cast(value, typeName)` of the TypeSystem —
fails when the textual value cannot parse as the requested type. -/
def castVal : TypeName → String → Option PValue
  | .tStr, s => some (.vStr s)
  | .tInt, s => (parseIntChars s.data).map .vInt
  | .tFloat, s => (parseFloatChars s.data).map .vFloat
  | .tDatetime, s => (parseNatChars s.data).map .vDatetime

/-- The string form of a native value (`str(...)` in the source). -/
def render : PValue → String
  | .vStr s => s
  | .vInt n => ⟨intChars n⟩
  | .vFloat n => ⟨intChars n ++ ['.', '0']⟩
  | .vDatetime n => ⟨natChars n⟩

/-- Whether a native value belongs to a declared type name. -/
def hasType : PValue → TypeName → Bool
  | .vStr _, .tStr => true
  | .vInt _, .tInt => true
  | .vFloat _, .tFloat => true
  | .vDatetime _, .tDatetime => true
  | _, _ => false

theorem parseFloatChars_render (n : Int) :
    parseFloatChars (intChars n ++ ['.', '0']) = some n := by
  unfold parseFloatChars
  rw [List.reverse_append]
  simp only [List.reverse_cons, List.reverse_nil, List.nil_append, List.cons_append,
    List.singleton_append]
  simp only [List.reverse_reverse]
  exact parseIntChars_intChars n

theorem castVal_render {x : PValue} {t : TypeName} (h : hasType x t = true) :
    castVal t (render x) = some x := by
  cases x <;> cases t <;> simp_all [hasType, castVal, render,
    parseNatChars_natChars, parseIntChars_intChars, parseFloatChars_render]

theorem castVal_hasType {t : TypeName} {v : String} {x : PValue}
    (h : castVal t v = some x) : hasType x t = true := by
  cases t <;> simp only [castVal, Option.map_eq_some'] at h
  case tStr => cases h; rfl
  all_goals (obtain ⟨m, _, rfl⟩ := h; rfl)

/-! ## Data model

Direct translation of the configuration data the source manipulates.
Filter clauses are Python lists `[column, operator, value]` (series clauses
`[column, value]`), so a clause is a `List String`. -/

/-- A filter clause as the source stores it: `[col, op, value]`, or
`[col, value]` for series clauses. -/
abbrev Clause := List String

/-- `filter[0]` — the clause's column name. -/
def clauseCol (cl : Clause) : String := cl.headD ""

/-- `filter[-1]` — the clause's stored value. -/
def clauseVal (cl : Clause) : String := cl.getLastD ""

/-- `filter[-1] = v` — replace the clause's stored value. -/
def clauseSetVal (cl : Clause) (v : String) : Clause := cl.dropLast ++ [v]

/-- The three filter lists of the source's `filter_types` drop-down. -/
inductive FKind
  | fAnd | fOr | fSeries
deriving DecidableEq

/-- A user-visible report: `st.exception` (reported error) or `st.warning`. -/
inductive Report
  | exc (msg : String)
  | warn (msg : String)
deriving DecidableEq

/-- A units spec: the source stores either `{"custom": v}` or
`{"column": c}` (never both keys), modelled as a pair with the unused
alternative `none`. -/
structure UnitsSpec where
  custom : Option String
  column : Option String
deriving DecidableEq

/-- The column alternative of a scaling spec
(`{"name": .., "series": .., "x_value": ..}`). -/
structure ScalingColumn where
  name : String
  seriesIdx : Option Nat
  x_value : String
deriving DecidableEq

/-- A scaling spec: `{"custom": v}` or `{"column": {...}}`, never both. -/
structure ScalingSpec where
  custom : Option String
  column : Option ScalingColumn
deriving DecidableEq

/-- An axis dictionary (`config.x_axis` / `config.y_axis`). -/
structure Axis where
  value : Option String
  units : Option UnitsSpec
  scaling : Option ScalingSpec
  sort : Option String
deriving DecidableEq

/-- One dataframe column: its dtype and its values (in string form). -/
structure DfCol where
  dtype : TypeName
  values : List String
deriving DecidableEq

/-- The dataframe: named columns. -/
abbrev Df := List (String × DfCol)

/-- The session state: the configuration document fields the source edits,
plus the working dataframe, its original snapshot, and the plot products.
`column_types` is keyed by `Option String` because the source writes
`config.column_types[x_column]` where `x_column` may be Python `None`. -/
structure SState where
  and_filters : List Clause
  or_filters : List Clause
  series : List Clause
  column_types : List (Option String × TypeName)
  x_axis : Axis
  y_axis : Axis
  plot_columns : List String
  extra_columns : List String
  df : Df
  original_df : Df
  mask : List Bool
  scale : Option String
  plot_ok : Bool
deriving DecidableEq

/-- Python truthiness of an optional string (`None` and `""` are falsy). -/
def falsy : Option String → Bool
  | none => true
  | some s => s = ""

/-- Python `str(x)` on an optional value: `str(None) = "None"`. -/
def pyStr : Option String → String
  | none => "None"
  | some s => s

/-- Dictionary lookup in `column_types`. -/
def lookupCT (cts : List (Option String × TypeName)) (k : Option String) :
    Option TypeName :=
  (cts.find? (fun p => p.1 = k)).map (·.2)

/-- Dictionary assignment `column_types[k] = t` (replace or append). -/
def insertCT (cts : List (Option String × TypeName)) (k : Option String)
    (t : TypeName) : List (Option String × TypeName) :=
  if (cts.find? (fun p => p.1 = k)).isSome then
    cts.map (fun p => if p.1 = k then (k, t) else p)
  else cts ++ [(k, t)]

/-- The dtype of a dataframe column (`df[c].dtype`), `str` if absent. -/
def inferDtype (df : Df) (c : String) : TypeName :=
  ((df.find? (fun p => p.1 = c)).map (·.2.dtype)).getD .tStr

/-- `state[key]` — the filter list of the given kind. -/
def getFilters (key : FKind) (s : SState) : List Clause :=
  match key with
  | .fAnd => s.and_filters
  | .fOr => s.or_filters
  | .fSeries => s.series

/-- Replace the filter list of the given kind. -/
def setFilters (key : FKind) (s : SState) (l : List Clause) : SState :=
  match key with
  | .fAnd => { s with and_filters := l }
  | .fOr => { s with or_filters := l }
  | .fSeries => { s with series := l }

/-- Modelled from the spec: `parseColumns` of `ConfigHandler` (not in this
snapshot) recomputes the set of columns that must carry a declared type by
unioning axis values, units columns, scaling columns, filter columns, and
extra columns (§4.2). -/
def referencedCols (s : SState) : List String :=
  (s.and_filters.map clauseCol) ++ (s.or_filters.map clauseCol) ++
  (s.series.map clauseCol) ++
  s.x_axis.value.toList ++ s.y_axis.value.toList ++
  ((s.x_axis.units.map (·.column)).getD none).toList ++
  ((s.y_axis.units.map (·.column)).getD none).toList ++
  ((((s.y_axis.scaling.map (·.column)).getD none).map (·.name)).toList) ++
  s.extra_columns

/-- Modelled from the spec: `parse_columns` — adds missing `column_types`
entries for every referenced column, inferring from the dataframe dtype. -/
def parseColumnsSt (s : SState) : SState :=
  let upd := fun (ct : List (Option String × TypeName)) (c : String) =>
    if (lookupCT ct (some c)).isSome then ct
    else ct ++ [(some c, inferDtype s.df c)]
  { s with column_types := (referencedCols s).foldl upd s.column_types }

/-- Modelled from the spec: `remove_redundant_types` — deletes
`column_types` entries whose key is no longer referenced. -/
def removeRedundantTypesSt (s : SState) : SState :=
  { s with column_types :=
      s.column_types.filter (fun p => p.1 ∈ (referencedCols s).map some) }

/-- Coerce one column's values to a declared type; fails if any value does
not parse. -/
def coerceValues (t : TypeName) (vs : List String) : Option (List String) :=
  (vs.mapM (castVal t)).map (·.map render)

/-- Modelled from the spec: `PostProcessing.apply_df_types` (not in this
snapshot) applies TypeSystem coercion to every column with a declared type;
per §7 a failing coercion leaves the dataset in its pre-operation state, so
the model is all-or-nothing. -/
def applyDfTypes (df : Df) (cts : List (Option String × TypeName)) :
    Option Df :=
  df.mapM (fun p =>
    match lookupCT cts (some p.1) with
    | none => some p
    | some t => (coerceValues t p.2.values).map (fun vs => (p.1, ⟨t, vs⟩)))

/-- Translation of `update_types` (source lines 339-356): re-parse column
names, remove redundant types, then try to update dataframe types; an
exception is reported and clears the plot. -/
def updateTypesSt (s : SState) : SState × List Report :=
  let s1 := removeRedundantTypesSt (parseColumnsSt s)
  match applyDfTypes s1.df s1.column_types with
  | some df2 => ({ s1 with df := df2 }, [])
  | none => ({ s1 with plot_ok := false }, [Report.exc "TypeCoercionError"])

/-- Translation of `update_filter` (source lines 448-466): the config and
widget filter lists are the same object in this model, `parse_filters` is a
display-state re-derivation (modelled from the spec as preserving clause
order, hence the identity here), followed by `update_types`. -/
def updateFilterSt (s : SState) (_key : FKind) : SState × List Report :=
  updateTypesSt s

/-! ## `add_filter` (source lines 469-527) -/

/-- Source lines 483-488: the submitted value is cast through the declared
filter column type; a failure is reported (`st.exception`) and the raw
string kept; either way the result is passed through `str(...)`. -/
def canonVal (t : TypeName) (v : String) : String :=
  match castVal t v with
  | some x => render x
  | none => v

/-- The clause the source builds: `[col, op, value]`, with the operator
deleted for series clauses (source lines 489-491). -/
def mkClause (key : FKind) (c op v : String) : Clause :=
  match key with
  | .fSeries => [c, v]
  | _ => [c, op, v]

/-- Python `list.index`: the index of the first element equal to `f`. -/
def pyIndex (L : List Clause) (f : Clause) : Nat :=
  match L with
  | [] => 0
  | g :: gs => if g = f then 0 else pyIndex gs f + 1

/-- Source lines 502-511, translated statement by statement: iterate the
positions of `state[key]`; for each clause on the filter column, find the
index of the first clause equal to it (`state[key].index(f)` — Python list
identity is by value), re-cast that clause's stored value through the
dataframe column's current dtype, and write the stringified result back.
The first failing re-cast raises; the raised-at list is returned in the
error case so the caller can roll back. `fuel` is the list length. -/
def recastIter (t : TypeName) (c : String) :
    Nat → Nat → List Clause → Except (List Clause) (List Clause)
  | 0, _, L => .ok L
  | fuel + 1, p, L =>
    match L[p]? with
    | none => .ok L
    | some f =>
      if clauseCol f = c then
        match castVal t (clauseVal f) with
        | some x =>
          recastIter t c fuel (p + 1) (L.set (pyIndex L f) (clauseSetVal f (render x)))
        | none => .error L
      else recastIter t c fuel (p + 1) L

/-- The state after the source's lines 496-500: append the new clause to
`state[key]`, record the column's declared type in `column_types`, and run
`update_filter` (which re-parses columns and re-types the dataframe). -/
def addFilterMid (s : SState) (key : FKind) (t : TypeName) (c : String)
    (cl : Clause) : SState × List Report :=
  let s1 := setFilters key s (getFilters key s ++ [cl])
  let s2 := { s1 with column_types := insertCT s1.column_types (some c) t }
  updateFilterSt s2 key

/-- Translation of `add_filter` (source lines 469-527).  `v = none` models a
missing filter value (both value widgets blank); the duplicate check uses
the canonicalized clause because the cast at lines 483-488 happens before
it; on a re-cast failure the source reports the exception, clears the plot,
removes the first list entry equal to the added clause object's current
value, and re-runs `update_filter`. -/
def addFilter (s : SState) (key : FKind) (t : TypeName) (c op : String)
    (v : Option String) : SState × List Report :=
  match v with
  | none => (s, [Report.warn "missing filter value"])
  | some v0 =>
    let rep1 : List Report :=
      match castVal t v0 with
      | some _ => []
      | none => [Report.exc "TypeCoercionError"]
    let cl := mkClause key c op (canonVal t v0)
    if cl ∈ getFilters key s then
      (s, rep1 ++ [Report.warn "duplicate filter"])
    else
      let mid := addFilterMid s key t c cl
      let s3 := mid.1
      let L := getFilters key s3
      match recastIter (inferDtype s3.df c) c L.length 0 L with
      | .ok L2 => (setFilters key s3 L2, rep1 ++ mid.2)
      | .error Lp =>
        let s4 := setFilters key { s3 with plot_ok := false } (Lp.erase (Lp.getLastD []))
        let upd := updateFilterSt s4 key
        (upd.1, rep1 ++ mid.2 ++ [Report.exc "TypeCoercionError recast"] ++ upd.2)

/-! ## `update_axes` (source lines 286-336) and `add_extra_column` (570-587) -/

/-- The widget values `update_axes` reads from the session state. -/
structure AxisInputs where
  x_column : Option String
  x_type : TypeName
  x_units_column : Option String
  x_units_custom : Option String
  y_column : Option String
  y_type : TypeName
  y_units_column : Option String
  y_units_custom : Option String
  y_scaling_column : Option String
  y_scaling_type : TypeName
  y_scaling_series : Option Clause
  y_scaling_x : Option String
  y_scaling_custom : Option String
deriving DecidableEq

/-- Modelled from the spec: `parse_scaling` of `ConfigHandler` (not in this
snapshot) re-derives the `ScalingSpec`, enforcing the mutual-exclusion
invariant — a custom value clears the column-based fields (§4.2). -/
def parseScalingSpec (sc : ScalingSpec) : ScalingSpec :=
  if sc.custom.isSome then { custom := sc.custom, column := none } else sc

/-- Translation of `update_axes` (source lines 286-336): set axis columns
and their types, replace the units dicts (custom wins; a column selection is
used only when custom is blank), replace the scaling dict likewise, apply
`parse_scaling`, then `update_types`. -/
def updateAxes (inp : AxisInputs) (s : SState) : SState × List Report :=
  let ct1 := insertCT s.column_types inp.x_column inp.x_type
  let ct2 := insertCT ct1 inp.y_column inp.y_type
  let xu : UnitsSpec × List (Option String × TypeName) :=
    if falsy inp.x_units_custom && !(falsy inp.x_units_column) then
      (⟨none, inp.x_units_column⟩, insertCT ct2 inp.x_units_column .tStr)
    else (⟨inp.x_units_custom, none⟩, ct2)
  let yu : UnitsSpec × List (Option String × TypeName) :=
    if falsy inp.y_units_custom && !(falsy inp.y_units_column) then
      (⟨none, inp.y_units_column⟩, insertCT xu.2 inp.y_units_column .tStr)
    else (⟨inp.y_units_custom, none⟩, xu.2)
  let seriesIdx : Option Nat :=
    match inp.y_scaling_series with
    | some sv => if sv = [] then none else some (s.series.indexOf sv)
    | none => none
  let ysc : ScalingSpec × List (Option String × TypeName) :=
    if falsy inp.y_scaling_custom && !(falsy inp.y_scaling_column) then
      (⟨none, some ⟨inp.y_scaling_column.getD "", seriesIdx, pyStr inp.y_scaling_x⟩⟩,
        insertCT yu.2 inp.y_scaling_column inp.y_scaling_type)
    else (⟨if falsy inp.y_scaling_custom then none else inp.y_scaling_custom, none⟩, yu.2)
  let s1 := { s with
    x_axis := { value := inp.x_column, units := some xu.1,
                scaling := s.x_axis.scaling, sort := s.x_axis.sort },
    y_axis := { value := inp.y_column, units := some yu.1,
                scaling := some (parseScalingSpec ysc.1), sort := s.y_axis.sort },
    column_types := ysc.2 }
  updateTypesSt s1

/-- Translation of `add_extra_column` (source lines 570-587): warn when the
chosen column duplicates anything in `plot_columns ++ extra_columns`, and
append it only when it is not yet an extra column, then re-parse columns. -/
def addExtraColumn (s : SState) (col : String) : SState × List Report :=
  let warns : List Report :=
    if (s.plot_columns ++ s.extra_columns ++ [col]).Nodup then []
    else [Report.warn "extra column already present"]
  if col ∈ s.extra_columns then (s, warns)
  else
    let s1 := { s with extra_columns := s.extra_columns ++ [col] }
    (parseColumnsSt s1, warns)

/-! ## Filter engine, scaling resolver and pipeline

The `FilterEngine`, `ScalingResolver`, `read_config` validation and
`run_post_processing` live in the `post_processing` / `config_handler`
modules, which are not in this snapshot; all are modelled from the spec
(§4.3, §4.4, §4.2, §4.5). -/

/-- The six comparison operators of the source's `operators` list. -/
def validOperator (op : String) : Bool :=
  ["==", "!=", "<", ">", "<=", ">="].contains op

/-- Native less-or-equal on values of one type (mixed types do not compare). -/
def pvLeB : PValue → PValue → Bool
  | .vInt a, .vInt b => a ≤ b
  | .vFloat a, .vFloat b => a ≤ b
  | .vDatetime a, .vDatetime b => a ≤ b
  | .vStr a, .vStr b => a ≤ b
  | _, _ => false

/-- Apply a clause operator to a cell value and the clause's target value. -/
def applyOpB (op : String) (cell target : PValue) : Bool :=
  if op = "==" then cell = target
  else if op = "!=" then !(cell = target : Bool)
  else if op = "<" then pvLeB cell target && !(cell = target : Bool)
  else if op = ">" then pvLeB target cell && !(cell = target : Bool)
  else if op = "<=" then pvLeB cell target
  else if op = ">=" then pvLeB target cell
  else false

/-- The values of a dataframe column (empty if the column is absent). -/
def colValues (df : Df) (c : String) : List String :=
  ((df.find? (fun p => p.1 = c)).map (·.2.values)).getD []

/-- Number of dataframe rows (the first column's length). -/
def nRows (df : Df) : Nat :=
  match df with
  | [] => 0
  | p :: _ => p.2.values.length

/-- Modelled from the spec (§4.3 steps 1-2): evaluate one clause to a
per-row boolean list — cast the stored string back to the column's declared
type, cast each cell likewise, and compare with the clause operator
(series clauses use the implicit `==`). -/
def clauseMask (df : Df) (cts : List (Option String × TypeName))
    (cl : Clause) (isSeries : Bool) : List Bool :=
  let c := clauseCol cl
  let op := if isSeries then "==" else cl.getD 1 "=="
  let t := (lookupCT cts (some c)).getD (inferDtype df c)
  match castVal t (clauseVal cl) with
  | none => List.replicate (nRows df) false
  | some target =>
    (colValues df c).map (fun cell =>
      match castVal t cell with
      | some cv => applyOpB op cv target
      | none => false)

/-- Pointwise conjunction of two masks. -/
def zipAnd (a b : List Bool) : List Bool := List.zipWith and a b

/-- Pointwise disjunction of two masks. -/
def zipOr (a b : List Bool) : List Bool := List.zipWith or a b

/-- Modelled from the spec (§4.3): the FilterEngine mask — conjoin the AND
clauses (empty list ⇒ all-true), disjoin the OR clauses (empty list ⇒
all-true, imposing no restriction), disjoin the series equalities (empty ⇒
all-true), and intersect the three. -/
def evaluateMask (df : Df) (cts : List (Option String × TypeName))
    (andF orF serF : List Clause) : List Bool :=
  let n := nRows df
  let andM := andF.foldl (fun m cl => zipAnd m (clauseMask df cts cl false))
    (List.replicate n true)
  let orM := if orF.isEmpty then List.replicate n true
    else orF.foldl (fun m cl => zipOr m (clauseMask df cts cl false))
      (List.replicate n false)
  let serM := if serF.isEmpty then List.replicate n true
    else serF.foldl (fun m cl => zipOr m (clauseMask df cts cl true))
      (List.replicate n false)
  zipAnd (zipAnd andM orM) serM

/-- Insert a string into a sorted list (ascending). -/
def insertSorted (x : String) : List String → List String
  | [] => [x]
  | y :: ys => if x ≤ y then x :: y :: ys else y :: insertSorted x ys

/-- Sort a list of strings ascending. -/
def sortStrings (l : List String) : List String := l.foldr insertSorted []

/-- The distinct, order-sorted values of a column restricted to rows
passing the mask. -/
def maskedDistinctSorted (df : Df) (mask : List Bool) (c : String) :
    List String :=
  sortStrings ((((colValues df c).zip mask).filterMap
    (fun p => if p.2 then some p.1 else none)).dedup)

/-- Modelled from the spec (§4.4): the ScalingResolver — a custom value is
returned directly; otherwise the candidate pool is the distinct sorted
masked values of the named column (further restricted by the series filter
when a series index is given); an `x_value` selects by position in the
x-axis's sorted distinct values; otherwise the sole candidate is taken,
ambiguity and missing columns being errors.  A stored `x_value` of
`"None"` means no x-value was selected. -/
def resolveScaling (df : Df) (mask : List Bool)
    (cts : List (Option String × TypeName)) (seriesF : List Clause)
    (xcol : Option String) (sc : Option ScalingSpec) :
    Except String (Option String) :=
  match sc with
  | none => .ok none
  | some spec =>
    match spec.custom with
    | some v => .ok (some v)
    | none =>
      match spec.column with
      | none => .ok none
      | some col =>
        let effMask :=
          match col.seriesIdx with
          | some i =>
            match seriesF[i]? with
            | some scl => zipAnd mask (clauseMask df cts scl true)
            | none => mask
          | none => mask
        let pool := maskedDistinctSorted df effMask col.name
        if col.x_value ≠ "None" then
          let xs := maskedDistinctSorted df effMask (pyStr xcol)
          if col.x_value ∈ xs then
            match pool[xs.indexOf col.x_value]? with
            | some v => .ok (some v)
            | none => .error "ScalingValueNotFoundError"
          else .error "ScalingValueNotFoundError"
        else
          match pool with
          | [v] => .ok (some v)
          | [] => .error "ScalingValueNotFoundError"
          | _ => .error "AmbiguousScalingError"

/-- Well-formedness of an AND/OR clause: `[col, op, value]` with a known
operator. -/
def validClauseB (cl : Clause) : Bool :=
  cl.length = 3 && validOperator (cl.getD 1 "")

/-- Well-formedness of a series clause: `[col, value]`. -/
def validSeriesB (cl : Clause) : Bool := cl.length = 2

/-- Modelled from the spec (§4.2 validation / `read_config`): structural
validation of the configuration — axis values present and filter clauses
well-formed. -/
def validateConfigB (s : SState) : Bool :=
  s.x_axis.value.isSome && s.y_axis.value.isSome &&
  s.and_filters.all validClauseB && s.or_filters.all validClauseB &&
  s.series.all validSeriesB

/-- Modelled from the spec (§4.5 steps 2-4): `run_post_processing` — coerce
every typed column of the snapshot, compute the filter mask, resolve the
scale; any failure aborts. -/
def runPostProcessing (s : SState) :
    Except String (Df × List Bool × Option String) :=
  match applyDfTypes s.original_df s.column_types with
  | none => .error "TypeCoercionError"
  | some df2 =>
    let mask := evaluateMask df2 s.column_types s.and_filters s.or_filters s.series
    match resolveScaling df2 mask s.column_types s.series s.x_axis.value
        (s.y_axis.scaling) with
    | .ok sc => .ok (df2, mask, sc)
    | .error e => .error e

/-- Translation of `rerun_post_processing` (source lines 590-608): validate
the config, reset the working dataframe from its original snapshot, and
re-run post-processing; any exception is reported and clears the plot
(per §4.5/§7 a failed run leaves the dataset at its pre-run snapshot). -/
def rerunPostProcessing (s : SState) : SState × List Report :=
  if validateConfigB s then
    match runPostProcessing s with
    | .ok r =>
      ({ s with df := r.1, mask := r.2.1, scale := r.2.2, plot_ok := true }, [])
    | .error e => ({ s with df := s.original_df, plot_ok := false }, [Report.exc e])
  else ({ s with plot_ok := false }, [Report.exc "ConfigValidationError"])

/-! ## `update_config` (source lines 106-126) -/

/-- An uploaded configuration document before validation. -/
structure RawConfig where
  x_value : Option String
  y_value : Option String
  and_filters : List Clause
  or_filters : List Clause
  series : List Clause
  type_names : List (String × String)
  plot_columns : List String
  extra_columns : List String
deriving DecidableEq

/-- A user-facing type name, when recognized. -/
def typeNameOf : String → Option TypeName
  | "datetime" => some .tDatetime
  | "int" => some .tInt
  | "float" => some .tFloat
  | "str" => some .tStr
  | _ => none

/-- Modelled from the spec (§4.2 validation): enumerate every structural
problem of an uploaded document rather than stopping at the first. -/
def validateRaw (r : RawConfig) : List String :=
  (if r.x_value.isSome then [] else ["missing x-axis value"]) ++
  (if r.y_value.isSome then [] else ["missing y-axis value"]) ++
  (r.and_filters.filterMap fun cl =>
    if validClauseB cl then none else some "malformed and filter") ++
  (r.or_filters.filterMap fun cl =>
    if validClauseB cl then none else some "malformed or filter") ++
  (r.series.filterMap fun cl =>
    if validSeriesB cl then none else some "malformed series") ++
  (r.type_names.filterMap fun p =>
    if (typeNameOf p.2).isSome then none else some "unrecognized type name")

/-- Install a validated document's fields into the session state. -/
def installRaw (r : RawConfig) (s : SState) : SState :=
  { s with
    x_axis := { value := r.x_value, units := none, scaling := none, sort := none },
    y_axis := { value := r.y_value, units := none, scaling := none, sort := none },
    and_filters := r.and_filters,
    or_filters := r.or_filters,
    series := r.series,
    column_types := r.type_names.filterMap
      (fun p => (typeNameOf p.2).map (fun t => (some p.1, t))),
    plot_columns := r.plot_columns,
    extra_columns := r.extra_columns }

/-- Modelled from the spec: `fromTemplate` of `ConfigHandler` (not in this
snapshot) — a document with every field present but empty/None, used as a
safe fallback when a supplied document fails validation (§4.2). -/
def templateInstall (s : SState) : SState :=
  { s with
    x_axis := { value := none, units := none, scaling := none, sort := none },
    y_axis := { value := none, units := none, scaling := none, sort := none },
    and_filters := [],
    or_filters := [],
    series := [],
    column_types := [],
    plot_columns := [],
    extra_columns := [] }

/-- Translation of `update_config` (source lines 106-126): a valid upload
replaces the session config and re-types the dataframe; on any exception
the error is reported (`st.exception`), the plot cleared, and the config
falls back to the template document. -/
def updateConfig (upload : Option RawConfig) (s : SState) :
    SState × List Report :=
  match upload with
  | none => (s, [])
  | some r =>
    if validateRaw r = [] then
      let s1 := installRaw r s
      match applyDfTypes s1.df s1.column_types with
      | some df2 => ({ s1 with df := df2 }, [])
      | none =>
        ({ templateInstall s with plot_ok := false },
          [Report.exc "TypeCoercionError"])
    else
      ({ templateInstall s with plot_ok := false },
        [Report.exc "ConfigValidationError"])

/-! ## Helper lemmas -/

theorem updateTypesSt_and_filters (s : SState) :
    (updateTypesSt s).1.and_filters = s.and_filters := by
  simp only [updateTypesSt]
  split <;> rfl

theorem updateTypesSt_or_filters (s : SState) :
    (updateTypesSt s).1.or_filters = s.or_filters := by
  simp only [updateTypesSt]
  split <;> rfl

theorem updateTypesSt_series (s : SState) :
    (updateTypesSt s).1.series = s.series := by
  simp only [updateTypesSt]
  split <;> rfl

theorem updateTypesSt_x_axis (s : SState) :
    (updateTypesSt s).1.x_axis = s.x_axis := by
  simp only [updateTypesSt]
  split <;> rfl

theorem updateTypesSt_y_axis (s : SState) :
    (updateTypesSt s).1.y_axis = s.y_axis := by
  simp only [updateTypesSt]
  split <;> rfl

theorem getFilters_updateTypesSt (k : FKind) (s : SState) :
    getFilters k (updateTypesSt s).1 = getFilters k s := by
  cases k <;> simp only [getFilters, updateTypesSt_and_filters,
    updateTypesSt_or_filters, updateTypesSt_series]

theorem getFilters_setFilters (k : FKind) (s : SState) (l : List Clause) :
    getFilters k (setFilters k s l) = l := by
  cases k <;> rfl

theorem addFilterMid_getFilters (s : SState) (key : FKind) (t : TypeName)
    (c : String) (cl : Clause) :
    getFilters key (addFilterMid s key t c cl).1 = getFilters key s ++ [cl] := by
  unfold addFilterMid updateFilterSt
  rw [getFilters_updateTypesSt]
  cases key <;> rfl

theorem pyIndex_lt_length {L : List Clause} {f : Clause} (h : f ∈ L) :
    pyIndex L f < L.length := by
  induction L with
  | nil => simp at h
  | cons g gs ih =>
    rw [pyIndex]
    by_cases hg : g = f
    · rw [if_pos hg]
      simp
    · rw [if_neg hg]
      have hmem : f ∈ gs := by
        cases List.mem_cons.mp h with
        | inl h1 => exact absurd h1.symm hg
        | inr h2 => exact h2
      simpa using Nat.succ_lt_succ (ih hmem)

theorem getElem_pyIndex {L : List Clause} {f : Clause} (h : f ∈ L) :
    L[pyIndex L f]? = some f := by
  induction L with
  | nil => simp at h
  | cons g gs ih =>
    rw [pyIndex]
    by_cases hg : g = f
    · rw [if_pos hg]
      simp [hg]
    · rw [if_neg hg]
      have hmem : f ∈ gs := by
        cases List.mem_cons.mp h with
        | inl h1 => exact absurd h1.symm hg
        | inr h2 => exact h2
      simpa using ih hmem

theorem recastIter_ok_length (t : TypeName) (c : String) :
    ∀ fuel p L L2, recastIter t c fuel p L = Except.ok L2 → L2.length = L.length := by
  intro fuel
  induction fuel with
  | zero =>
    intro p L L2 h
    simp only [recastIter] at h
    cases h
    rfl
  | succ fuel ih =>
    intro p L L2 h
    rw [recastIter] at h
    split at h
    · cases h; rfl
    · split at h
      · split at h
        · have := ih _ _ _ h
          simpa using this
        · cases h
      · exact ih _ _ _ h

theorem recastIter_error_length (t : TypeName) (c : String) :
    ∀ fuel p L Lp, recastIter t c fuel p L = Except.error Lp → Lp.length = L.length := by
  intro fuel
  induction fuel with
  | zero =>
    intro p L Lp h
    simp only [recastIter] at h
    cases h
  | succ fuel ih =>
    intro p L Lp h
    rw [recastIter] at h
    split at h
    · cases h
    · split at h
      · split at h
        · have := ih _ _ _ h
          simpa using this
        · cases h; rfl
      · exact ih _ _ _ h

theorem clauseSetVal_self {cl : Clause} (hcl : cl ≠ []) :
    clauseSetVal cl (clauseVal cl) = cl := by
  unfold clauseSetVal clauseVal
  rw [List.getLastD_eq_getLast?, List.getLast?_eq_getLast cl hcl]
  exact List.dropLast_append_getLast hcl

/-- The re-cast loop never changes the last clause of the list when that
clause's value is already in canonical form for the target type: every
write lands at an index at most the loop position, and a write at the last
index rewrites the identical canonical value. -/
theorem recastIter_getLast (t : TypeName) (c : String) (x : PValue)
    (hx : castVal t (render x) = some x) (cl : Clause) (hcl : cl ≠ [])
    (hval : clauseVal cl = render x) :
    ∀ fuel p L L2, L.getLast? = some cl →
      recastIter t c fuel p L = Except.ok L2 → L2.getLast? = some cl := by
  intro fuel
  induction fuel with
  | zero =>
    intro p L L2 hlast h
    simp only [recastIter] at h
    cases h
    exact hlast
  | succ fuel ih =>
    intro p L L2 hlast h
    rw [recastIter] at h
    split at h
    · cases h; exact hlast
    · rename_i f hL
      split at h
      · rename_i hc
        split at h
        · rename_i y hx2
          refine ih _ _ _ ?_ h
          -- the written list keeps `cl` as its last element
          have hfmem : f ∈ L := List.getElem?_mem hL
          have hilt : pyIndex L f < L.length := pyIndex_lt_length hfmem
          by_cases hi : pyIndex L f = L.length - 1
          · -- the write hits the last index: `f` must be `cl` itself
            have hfcl : f = cl := by
              have h1 : L[pyIndex L f]? = some f := getElem_pyIndex hfmem
              rw [hi, ← List.getLast?_eq_getElem?, hlast] at h1
              exact (Option.some.injEq _ _ ▸ h1).symm
            subst hfcl
            rw [hval] at hx2
            rw [hx] at hx2
            cases hx2
            rw [← hval, clauseSetVal_self hcl]
            rw [List.getLast?_eq_getElem?, List.length_set]
            rw [← hi, List.getElem?_set_self hilt]
          · -- the write misses the last index: the last element is untouched
            rw [List.getLast?_eq_getElem?, List.length_set, List.getElem?_set_ne hi,
              ← List.getLast?_eq_getElem?]
            exact hlast
        · cases h
      · exact ih _ _ _ hlast h

/-! ## Concrete states used by counterexamples and witnesses -/

/-- An axis with no information. -/
def axNone : Axis := ⟨none, none, none, none⟩

/-- Build a session state around filter lists, column types and a dataframe. -/
def mkState (andF orF serF : List Clause)
    (cts : List (Option String × TypeName)) (df : Df) : SState :=
  { and_filters := andF, or_filters := orF, series := serF,
    column_types := cts, x_axis := axNone, y_axis := axNone,
    plot_columns := [], extra_columns := [], df := df, original_df := df,
    mask := [], scale := none, plot_ok := true }

/-- An integer column `c` with an existing OR clause on it. -/
def sCross : SState :=
  mkState [] [["c", "==", "2"]] [] [(some "c", .tInt)]
    [("c", ⟨.tInt, ["1", "2", "3"]⟩)]

/-- A string column `c` with two AND clauses on it, one non-numeric. -/
def sRoll : SState :=
  mkState [["c", "==", "2"], ["c", "==", "abc"]] [] [] [(some "c", .tStr)]
    [("c", ⟨.tStr, ["1", "2"]⟩)]

/-- A string column `c` whose values cannot be coerced to int. -/
def sSwallow : SState :=
  mkState [] [] [] [(some "c", .tStr)] [("c", ⟨.tStr, ["a"]⟩)]

/-- An integer column `c` with no filters yet. -/
def sSeries : SState :=
  mkState [] [] [] [(some "c", .tInt)] [("c", ⟨.tInt, ["1", "2"]⟩)]

/-- An integer column `c` with one AND clause already stored on it. -/
def sDup : SState :=
  mkState [["c", "==", "2"]] [] [] [(some "c", .tInt)]
    [("c", ⟨.tInt, ["1", "2"]⟩)]

/-! ## Further helper lemmas for `add_filter` -/

theorem getFilters_setFilters_ne (k2 key : FKind) (s : SState)
    (l : List Clause) (hne : k2 ≠ key) :
    getFilters k2 (setFilters key s l) = getFilters k2 s := by
  cases key <;> cases k2 <;> first
    | exact absurd rfl hne
    | rfl

theorem getFilters_column_types (k : FKind) (s : SState)
    (ct : List (Option String × TypeName)) :
    getFilters k { s with column_types := ct } = getFilters k s := by
  cases k <;> rfl

theorem getFilters_plot_ok (k : FKind) (s : SState) (b : Bool) :
    getFilters k { s with plot_ok := b } = getFilters k s := by
  cases k <;> rfl

theorem addFilterMid_getFilters_ne (s : SState) (key k2 : FKind)
    (t : TypeName) (c : String) (cl : Clause) (hne : k2 ≠ key) :
    getFilters k2 (addFilterMid s key t c cl).1 = getFilters k2 s := by
  unfold addFilterMid updateFilterSt
  rw [getFilters_updateTypesSt, getFilters_column_types,
    getFilters_setFilters_ne k2 key _ _ hne]

/-! ## Claim C1 -/

/-- C1 (amended): a filter addition of any kind (and, or, series) re-casts
clauses only in the list the new filter was added to: every other filter
list is returned exactly as it was, whatever clauses it holds on the same
column. -/
theorem addFilter_recasts_only_target_list (s : SState) (key k2 : FKind)
    (t : TypeName) (c op : String) (v : Option String) (hne : k2 ≠ key) :
    getFilters k2 (addFilter s key t c op v).1 = getFilters k2 s := by
  cases v with
  | none => rfl
  | some v0 =>
    simp only [addFilter]
    split
    · rfl
    · split
      · rw [getFilters_setFilters_ne k2 key _ _ hne,
          addFilterMid_getFilters_ne s key k2 t c _ hne]
      · show getFilters k2 (updateFilterSt _ _).1 = getFilters k2 s
        unfold updateFilterSt
        rw [getFilters_updateTypesSt, getFilters_setFilters_ne k2 key _ _ hne,
          getFilters_plot_ok, addFilterMid_getFilters_ne s key k2 t c _ hne]

/-- C1 (amended, witness): on `sCross` an AND addition leaves the OR list
untouched. -/
theorem addFilter_recasts_only_target_list_witness :
    getFilters .fOr (addFilter sCross .fAnd .tFloat "c" "==" (some "3")).1
      = getFilters .fOr sCross :=
  addFilter_recasts_only_target_list sCross .fAnd .fOr .tFloat "c" "=="
    (some "3") (by decide)

/-- C1 (counterexample): on `sCross`, adding a float AND filter on column
`c` leaves the OR clause on `c` stored as `"2"`, although its re-cast
through the new declared type would be `"2.0"` — the retyping pass does not
reach the other filter lists. -/
theorem addFilter_crosslist_cex :
    (addFilter sCross .fAnd .tFloat "c" "==" (some "3")).1.or_filters
        = [["c", "==", "2"]] ∧
      canonVal .tFloat "2" = "2.0" ∧ ("2.0" : String) ≠ "2" := by
  refine ⟨?_, by decide, by decide⟩
  decide

/-! ## Claim C4 -/

/-- C4: attempting to add a clause identical (after the canonicalizing
cast) to one already in that kind's list is refused with a warning: the
whole session state — filter lists, `column_types`, dataframe — is returned
unchanged and no exception is raised. -/
theorem addFilter_duplicate_refused (s : SState) (key : FKind) (t : TypeName)
    (c op v0 : String)
    (h : mkClause key c op (canonVal t v0) ∈ getFilters key s) :
    (addFilter s key t c op (some v0)).1 = s ∧
    Report.warn "duplicate filter" ∈ (addFilter s key t c op (some v0)).2 := by
  simp only [addFilter]
  rw [if_pos h]
  exact ⟨rfl, by simp⟩

/-- C4 (witness): on `sDup`, re-adding the stored AND clause
`["c", "==", "2"]` is refused and leaves the state untouched. -/
theorem addFilter_duplicate_refused_witness :
    (addFilter sDup .fAnd .tInt "c" "==" (some "2")).1 = sDup ∧
    Report.warn "duplicate filter" ∈ (addFilter sDup .fAnd .tInt "c" "==" (some "2")).2 :=
  addFilter_duplicate_refused sDup .fAnd .tInt "c" "==" "2" (by decide)

/-! ## Claim C10 -/

/-- C10: `add_extra_column` never lets `extra_columns` acquire a duplicate
entry, while a column that overlaps `plot_columns` is only warned about and
is still appended. -/
theorem addExtraColumn_no_duplicate (s : SState) (col : String)
    (h : s.extra_columns.Nodup) :
    (addExtraColumn s col).1.extra_columns.Nodup ∧
    (col ∈ s.plot_columns → col ∉ s.extra_columns →
      col ∈ (addExtraColumn s col).1.extra_columns ∧
      (addExtraColumn s col).2 ≠ []) := by
  unfold addExtraColumn
  by_cases hmem : col ∈ s.extra_columns
  · rw [if_pos hmem]
    exact ⟨h, fun _ hno => absurd hmem hno⟩
  · rw [if_neg hmem]
    have hpres : (parseColumnsSt
        { s with extra_columns := s.extra_columns ++ [col] }).extra_columns
        = s.extra_columns ++ [col] := rfl
    constructor
    · show (parseColumnsSt _).extra_columns.Nodup
      rw [hpres]
      simp [List.nodup_append, h, hmem]
    · intro hplot _
      constructor
      · show col ∈ (parseColumnsSt _).extra_columns
        rw [hpres]
        simp
      · have hdup : ¬ (s.plot_columns ++ s.extra_columns ++ [col]).Nodup := by
          intro hn
          rw [List.nodup_append] at hn
          exact hn.2.2 (List.mem_append_left _ hplot) (List.mem_singleton_self col)
        rw [if_neg hdup]
        simp

/-- C10 (witness): on a state with `c` among the plot columns and no extra
columns, adding extra column `c` appends it and emits the overlap warning. -/
theorem addExtraColumn_no_duplicate_witness :
    (addExtraColumn { sDup with plot_columns := ["c"] } "c").1.extra_columns.Nodup ∧
    ("c" ∈ ({ sDup with plot_columns := ["c"] } : SState).plot_columns →
      "c" ∉ ({ sDup with plot_columns := ["c"] } : SState).extra_columns →
      "c" ∈ (addExtraColumn { sDup with plot_columns := ["c"] } "c").1.extra_columns ∧
      (addExtraColumn { sDup with plot_columns := ["c"] } "c").2 ≠ []) :=
  addExtraColumn_no_duplicate { sDup with plot_columns := ["c"] } "c" (by decide)

/-! ## Claim C3 -/

/-- Not both alternatives of a units spec populated. -/
def unitsExclB : Option UnitsSpec → Bool
  | none => true
  | some u => u.custom.isNone || u.column.isNone

/-- Not both alternatives of a scaling spec populated. -/
def scalingExclB : Option ScalingSpec → Bool
  | none => true
  | some u => u.custom.isNone || u.column.isNone

/-- Axis inputs with nothing selected. -/
def inpNone : AxisInputs :=
  { x_column := none, x_type := .tStr, x_units_column := none,
    x_units_custom := none, y_column := none, y_type := .tStr,
    y_units_column := none, y_units_custom := none,
    y_scaling_column := none, y_scaling_type := .tStr,
    y_scaling_series := none, y_scaling_x := none, y_scaling_custom := none }

/-- Axis inputs selecting a column-based y scaling with no x-value. -/
def inpScal : AxisInputs :=
  { x_column := none, x_type := .tStr, x_units_column := none,
    x_units_custom := none, y_column := none, y_type := .tStr,
    y_units_column := none, y_units_custom := none,
    y_scaling_column := some "c", y_scaling_type := .tFloat,
    y_scaling_series := none, y_scaling_x := none, y_scaling_custom := none }

/-- C3: after `update_axes`, no units or scaling spec of either axis has
both its custom and its column alternative populated (the x axis carries no
scaling selection in the source, so its spec is returned as it was). -/
theorem updateAxes_mutual_exclusion (inp : AxisInputs) (s : SState)
    (h : scalingExclB s.x_axis.scaling = true) :
    unitsExclB (updateAxes inp s).1.x_axis.units = true ∧
    unitsExclB (updateAxes inp s).1.y_axis.units = true ∧
    scalingExclB (updateAxes inp s).1.x_axis.scaling = true ∧
    scalingExclB (updateAxes inp s).1.y_axis.scaling = true := by
  simp only [updateAxes, updateTypesSt_x_axis, updateTypesSt_y_axis]
  refine ⟨?_, ?_, h, ?_⟩
  · split <;> simp [unitsExclB]
  · split <;> simp [unitsExclB]
  · split <;> simp [scalingExclB, parseScalingSpec]

/-- C3 (witness): concrete instance on `sDup` with empty axis inputs. -/
theorem updateAxes_mutual_exclusion_witness :
    unitsExclB (updateAxes inpNone sDup).1.x_axis.units = true ∧
    unitsExclB (updateAxes inpNone sDup).1.y_axis.units = true ∧
    scalingExclB (updateAxes inpNone sDup).1.x_axis.scaling = true ∧
    scalingExclB (updateAxes inpNone sDup).1.y_axis.scaling = true :=
  updateAxes_mutual_exclusion inpNone sDup (by decide)

/-! ## Claim C9 -/

/-- C9: when a column-based y scaling is selected with no x-axis scaling
value, the stored `x_value` field is the literal string `"None"`
(`str(None)`), not an absent or null field. -/
theorem updateAxes_xvalue_string_none (inp : AxisInputs) (s : SState)
    (nm : String) (h1 : falsy inp.y_scaling_custom = true)
    (h2 : inp.y_scaling_column = some nm) (h3 : nm ≠ "")
    (h4 : inp.y_scaling_x = none) :
    ∃ sc : ScalingColumn,
      (updateAxes inp s).1.y_axis.scaling = some ⟨none, some sc⟩ ∧
      sc.name = nm ∧ sc.x_value = "None" := by
  have hcond : (falsy inp.y_scaling_custom && !(falsy inp.y_scaling_column)) = true := by
    rw [h1, h2]
    simp [falsy, h3]
  simp only [updateAxes, updateTypesSt_y_axis]
  rw [if_pos hcond]
  simp only [h2, h4, parseScalingSpec, pyStr, Option.getD_some, Option.isSome_none,
    Bool.false_eq_true, if_false]
  exact ⟨_, rfl, rfl, rfl⟩

/-- C9 (witness): concrete instance on `sDup` selecting scaling column `c`. -/
theorem updateAxes_xvalue_string_none_witness :
    ∃ sc : ScalingColumn,
      (updateAxes inpScal sDup).1.y_axis.scaling = some ⟨none, some sc⟩ ∧
      sc.name = "c" ∧ sc.x_value = "None" :=
  updateAxes_xvalue_string_none inpScal sDup "c" (by decide) rfl (by decide) rfl

/-! ## Claim C2 -/

/-- C2 (amended): when a re-cast raises during `add_filter`, the failure is
reported and one clause equal to the just-added one is removed, so the
target list returns to its pre-add length — but clauses re-cast before the
failure keep their re-cast values, so the list need not equal its pre-add
state (see the counterexample). -/
theorem addFilter_rollback_reports (s : SState) (key : FKind) (t : TypeName)
    (c op v0 : String) (Lp : List Clause)
    (hdup : mkClause key c op (canonVal t v0) ∉ getFilters key s)
    (herr : recastIter
        (inferDtype (addFilterMid s key t c (mkClause key c op (canonVal t v0))).1.df c) c
        (getFilters key (addFilterMid s key t c (mkClause key c op (canonVal t v0))).1).length 0
        (getFilters key (addFilterMid s key t c (mkClause key c op (canonVal t v0))).1)
        = Except.error Lp) :
    (getFilters key (addFilter s key t c op (some v0)).1).length
        = (getFilters key s).length ∧
    Report.exc "TypeCoercionError recast" ∈ (addFilter s key t c op (some v0)).2 := by
  have hlen1 : Lp.length = (getFilters key s).length + 1 := by
    have := recastIter_error_length _ _ _ _ _ _ herr
    rw [addFilterMid_getFilters] at this
    simpa using this
  have hne : Lp ≠ [] := by
    intro hnil
    rw [hnil] at hlen1
    simp at hlen1
  have hmem : Lp.getLastD [] ∈ Lp := by
    rw [List.getLastD_eq_getLast?, List.getLast?_eq_getLast Lp hne]
    exact List.getLast_mem hne
  simp only [addFilter]
  rw [if_neg hdup]
  split
  · rename_i L2 heq
    rw [herr] at heq
    cases heq
  · rename_i Lq heq
    rw [herr] at heq
    cases heq
    constructor
    · show (getFilters key (updateFilterSt _ key).1).length = _
      unfold updateFilterSt
      rw [getFilters_updateTypesSt, getFilters_setFilters]
      rw [List.length_erase_of_mem hmem]
      omega
    · simp

/-- C2 (witness): on `sRoll`, adding a float AND filter makes the re-cast
of the stored `"abc"` clause fail; the rollback restores the pre-add
length and the failure is reported. -/
theorem addFilter_rollback_reports_witness :
    (getFilters .fAnd (addFilter sRoll .fAnd .tFloat "c" "==" (some "3")).1).length
        = (getFilters .fAnd sRoll).length ∧
    Report.exc "TypeCoercionError recast"
        ∈ (addFilter sRoll .fAnd .tFloat "c" "==" (some "3")).2 :=
  addFilter_rollback_reports sRoll .fAnd .tFloat "c" "==" "3"
    [["c", "==", "2.0"], ["c", "==", "abc"], ["c", "==", "3.0"]]
    (by decide) (by rfl)

/-- C2 (counterexample): on `sRoll` the failing add is reported and the
added clause removed, yet the filter set does not equal its pre-add state:
the clause stored as `"2"` has been re-cast to `"2.0"`. -/
theorem addFilter_rollback_cex :
    (addFilter sRoll .fAnd .tFloat "c" "==" (some "3")).1.and_filters
        = [["c", "==", "2.0"], ["c", "==", "abc"]] ∧
    sRoll.and_filters = [["c", "==", "2"], ["c", "==", "abc"]] ∧
    Report.exc "TypeCoercionError recast"
        ∈ (addFilter sRoll .fAnd .tFloat "c" "==" (some "3")).2 ∧
    (addFilter sRoll .fAnd .tFloat "c" "==" (some "3")).1.and_filters
        ≠ sRoll.and_filters := by
  exact ⟨by decide, by decide, by decide, by decide⟩

/-! ## Claim C5 -/

theorem canonVal_eq_render {t : TypeName} {v0 : String} {x : PValue}
    (hx : castVal t v0 = some x) : canonVal t v0 = render x := by
  unfold canonVal
  rw [hx]

theorem clauseVal_mkClause (key : FKind) (c op v : String) :
    clauseVal (mkClause key c op v) = v := by
  cases key <;> rfl

theorem mkClause_ne_nil (key : FKind) (c op v : String) :
    mkClause key c op v ≠ [] := by
  cases key <;> simp [mkClause]

/-- C5 (amended): when the initial cast of the author's value succeeds and
the dataframe column's dtype at re-cast time equals the declared type, a
successfully added clause is stored with value `str(cast(value))` — the
author's value cast through the declared column type once; series clauses
are stored without an explicit operator. -/
theorem addFilter_stores_canonical_value (s : SState) (key : FKind)
    (t : TypeName) (c op v0 : String) (x : PValue) (L2 : List Clause)
    (hx : castVal t v0 = some x)
    (hdup : mkClause key c op (render x) ∉ getFilters key s)
    (hdt : inferDtype (addFilterMid s key t c (mkClause key c op (render x))).1.df c = t)
    (hok : recastIter t c
        (getFilters key (addFilterMid s key t c (mkClause key c op (render x))).1).length 0
        (getFilters key (addFilterMid s key t c (mkClause key c op (render x))).1)
        = Except.ok L2) :
    (getFilters key (addFilter s key t c op (some v0)).1).getLast?
        = some (mkClause key c op (render x)) ∧
    (key = .fSeries → mkClause key c op (render x) = [c, render x]) := by
  have hcv : canonVal t v0 = render x := canonVal_eq_render hx
  have hstart : (getFilters key
      (addFilterMid s key t c (mkClause key c op (render x))).1).getLast?
      = some (mkClause key c op (render x)) := by
    rw [addFilterMid_getFilters]
    exact List.getLast?_concat _
  simp only [addFilter, hcv]
  rw [if_neg hdup, hdt]
  constructor
  · split
    · rename_i L2' heq
      rw [hok] at heq
      cases heq
      rw [getFilters_setFilters]
      exact recastIter_getLast t c x
        (castVal_render (castVal_hasType hx)) _ (mkClause_ne_nil key c op _)
        (clauseVal_mkClause key c op _) _ 0 _ L2 hstart hok
    · rename_i Lq heq
      rw [hok] at heq
      cases heq
  · intro hk
    subst hk
    rfl

/-- C5 (witness): adding a series filter `c == 2` on an integer column
stores the clause `["c", "2"]` — value cast once, no operator. -/
theorem addFilter_stores_canonical_value_witness :
    (getFilters .fSeries (addFilter sSeries .fSeries .tInt "c" "==" (some "2")).1).getLast?
        = some (mkClause .fSeries "c" "==" (render (.vInt 2))) ∧
    (FKind.fSeries = .fSeries →
      mkClause .fSeries "c" "==" (render (.vInt 2)) = ["c", render (.vInt 2)]) :=
  addFilter_stores_canonical_value sSeries .fSeries .tInt "c" "==" "2"
    (.vInt 2) [["c", "2"]] (by decide) (by decide) (by decide) (by rfl)

/-- C5 (counterexample): on `sSwallow`, the cast of `"x"` as int fails but
is only reported; the dataframe coercion to int also fails, so the re-cast
goes through the old string dtype and succeeds — the clause is added with
declared type `int` and a stored value that no cast through `int` can
produce. -/
theorem addFilter_canonical_cex :
    (addFilter sSwallow .fAnd .tInt "c" "==" (some "x")).1.and_filters
        = [["c", "==", "x"]] ∧
    lookupCT (addFilter sSwallow .fAnd .tInt "c" "==" (some "x")).1.column_types
        (some "c") = some .tInt ∧
    castVal .tInt "x" = none := by
  exact ⟨by decide, by decide, by decide⟩

/-! ## Claim C7 -/

theorem zipAnd_replicate_true (n : Nat) :
    zipAnd (List.replicate n true) (List.replicate n true)
      = List.replicate n true := by
  induction n with
  | zero => rfl
  | succ n ih =>
    simp only [zipAnd, List.replicate_succ, List.zipWith_cons_cons] at ih ⊢
    rw [ih]
    rfl

/-- C7: an empty filter set — empty AND, OR and series lists — evaluates to
an all-true row mask; in particular the empty OR list imposes no
restriction, exactly like the empty AND list. -/
theorem evaluateMask_empty_all_true (df : Df)
    (cts : List (Option String × TypeName)) :
    evaluateMask df cts [] [] [] = List.replicate (nRows df) true := by
  simp only [evaluateMask, List.foldl_nil, List.isEmpty_nil, if_true]
  rw [zipAnd_replicate_true, zipAnd_replicate_true]

/-! ## Claim C6 -/

theorem validateConfigB_run_fields (s : SState) (df2 : Df) (m : List Bool)
    (sc : Option String) (ok : Bool) :
    validateConfigB { s with df := df2, mask := m, scale := sc, plot_ok := ok }
      = validateConfigB s := rfl

theorem runPostProcessing_run_fields (s : SState) (df2 : Df) (m : List Bool)
    (sc : Option String) (ok : Bool) :
    runPostProcessing { s with df := df2, mask := m, scale := sc, plot_ok := ok }
      = runPostProcessing s := rfl

theorem validateConfigB_df_plot (s : SState) (df2 : Df) (ok : Bool) :
    validateConfigB { s with df := df2, plot_ok := ok } = validateConfigB s := rfl

theorem runPostProcessing_df_plot (s : SState) (df2 : Df) (ok : Bool) :
    runPostProcessing { s with df := df2, plot_ok := ok } = runPostProcessing s := rfl

theorem validateConfigB_plot (s : SState) (ok : Bool) :
    validateConfigB { s with plot_ok := ok } = validateConfigB s := rfl

theorem runPostProcessing_plot (s : SState) (ok : Bool) :
    runPostProcessing { s with plot_ok := ok } = runPostProcessing s := rfl

/-- C6: running post-processing twice in succession with the unchanged
dataset and configuration yields the same working dataframe, mask and scale
both times — each run resets the dataframe from the original snapshot, so
coercions never compound. -/
theorem rerunPostProcessing_idempotent (s : SState) :
    (rerunPostProcessing (rerunPostProcessing s).1).1.df
        = (rerunPostProcessing s).1.df ∧
    (rerunPostProcessing (rerunPostProcessing s).1).1.mask
        = (rerunPostProcessing s).1.mask ∧
    (rerunPostProcessing (rerunPostProcessing s).1).1.scale
        = (rerunPostProcessing s).1.scale := by
  by_cases hv : validateConfigB s = true
  · cases hr : runPostProcessing s with
    | ok r =>
      have h1 : rerunPostProcessing s
          = ({ s with df := r.1, mask := r.2.1, scale := r.2.2, plot_ok := true }, []) := by
        unfold rerunPostProcessing
        rw [if_pos hv, hr]
      have h2 : rerunPostProcessing
          { s with df := r.1, mask := r.2.1, scale := r.2.2, plot_ok := true }
          = ({ s with df := r.1, mask := r.2.1, scale := r.2.2, plot_ok := true }, []) := by
        unfold rerunPostProcessing
        rw [validateConfigB_run_fields, runPostProcessing_run_fields, if_pos hv, hr]
      rw [h1, h2]
      exact ⟨rfl, rfl, rfl⟩
    | error e =>
      have h1 : rerunPostProcessing s
          = ({ s with df := s.original_df, plot_ok := false }, [Report.exc e]) := by
        unfold rerunPostProcessing
        rw [if_pos hv, hr]
      have h2 : rerunPostProcessing { s with df := s.original_df, plot_ok := false }
          = ({ s with df := s.original_df, plot_ok := false }, [Report.exc e]) := by
        unfold rerunPostProcessing
        rw [validateConfigB_df_plot, runPostProcessing_df_plot, if_pos hv, hr]
      rw [h1, h2]
      exact ⟨rfl, rfl, rfl⟩
  · have h1 : rerunPostProcessing s
        = ({ s with plot_ok := false }, [Report.exc "ConfigValidationError"]) := by
      unfold rerunPostProcessing
      rw [if_neg hv]
    have h2 : rerunPostProcessing { s with plot_ok := false }
        = ({ s with plot_ok := false }, [Report.exc "ConfigValidationError"]) := by
      unfold rerunPostProcessing
      rw [validateConfigB_plot, if_neg hv]
    rw [h1, h2]
    exact ⟨rfl, rfl, rfl⟩

/-! ## Claim C8 -/

/-- An uploaded document missing both axis values. -/
def rBad : RawConfig :=
  { x_value := none, y_value := none, and_filters := [], or_filters := [],
    series := [], type_names := [], plot_columns := [], extra_columns := [] }

/-- C8: whenever a supplied configuration document fails validation,
`update_config` falls back to the template document — every config field
present but empty/None — and the validation error is reported alongside
rather than swallowed. -/
theorem updateConfig_invalid_falls_back (r : RawConfig) (s : SState)
    (h : validateRaw r ≠ []) :
    (updateConfig (some r) s).1.x_axis = axNone ∧
    (updateConfig (some r) s).1.y_axis = axNone ∧
    (updateConfig (some r) s).1.and_filters = [] ∧
    (updateConfig (some r) s).1.or_filters = [] ∧
    (updateConfig (some r) s).1.series = [] ∧
    (updateConfig (some r) s).1.column_types = [] ∧
    (updateConfig (some r) s).1.plot_columns = [] ∧
    (updateConfig (some r) s).1.extra_columns = [] ∧
    (updateConfig (some r) s).1.plot_ok = false ∧
    Report.exc "ConfigValidationError" ∈ (updateConfig (some r) s).2 := by
  simp only [updateConfig]
  rw [if_neg h]
  exact ⟨rfl, rfl, rfl, rfl, rfl, rfl, rfl, rfl, rfl, by simp⟩

/-- C8 (witness): a document with no axis values fails validation and falls
back to the template. -/
theorem updateConfig_invalid_falls_back_witness :
    (updateConfig (some rBad) sDup).1.x_axis = axNone ∧
    (updateConfig (some rBad) sDup).1.y_axis = axNone ∧
    (updateConfig (some rBad) sDup).1.and_filters = [] ∧
    (updateConfig (some rBad) sDup).1.or_filters = [] ∧
    (updateConfig (some rBad) sDup).1.series = [] ∧
    (updateConfig (some rBad) sDup).1.column_types = [] ∧
    (updateConfig (some rBad) sDup).1.plot_columns = [] ∧
    (updateConfig (some rBad) sDup).1.extra_columns = [] ∧
    (updateConfig (some rBad) sDup).1.plot_ok = false ∧
    Report.exc "ConfigValidationError" ∈ (updateConfig (some rBad) sDup).2 :=
  updateConfig_invalid_falls_back rBad sDup (by decide)

end StreamlitPost
